import Mathlib

/-!
Verification development for the govhk-form-broken-link-detector link-health
check engine (`src/app.py`).  The Python source is shallowly embedded below:
pure fragments become Lean functions; the network, the snapshot file and the
single-flight lock become explicit parameters and returned state; exceptions
become `Except`.  Timestamps are the `strftime` strings the code uses, so they
are modelled as `String`.
-/

namespace GovLink

/-- Python `str.strip()`: drop whitespace from both ends. -/
def pyStrip (s : String) : String :=
  ⟨(((s.data.dropWhile Char.isWhitespace).reverse.dropWhile Char.isWhitespace).reverse)⟩

/-- Auxiliary for Python `str.split()` with no argument: accumulate the current
token (reversed in `acc`) while scanning the character list. -/
def pyTokensAux : List Char → List Char → List String
  | [], acc => if acc.isEmpty then [] else [⟨acc.reverse⟩]
  | c :: rest, acc =>
    if c.isWhitespace then
      if acc.isEmpty then pyTokensAux rest []
      else (⟨acc.reverse⟩ : String) :: pyTokensAux rest []
    else pyTokensAux rest (c :: acc)

/-- Python `str.split()`: split on runs of whitespace, dropping empty pieces. -/
def pyTokens (s : String) : List String :=
  pyTokensAux s.data []

/-- `status.split()[0]` (`src/app.py:359`); `none` models the `IndexError`
raised when the split result is empty. -/
def pyFirstToken (s : String) : Option String :=
  (pyTokens s).head?

/-- Python truthiness of an optional string (`form.get(key)` used as a
condition): present and non-empty. -/
def truthy : Option String → Bool
  | some s => !s.isEmpty
  | none => false

/-! ## Link Prober (`check_link`, `src/app.py:301-309`) -/

/-- Failure signature carried by a TLS-level failure (used only to show the
code does not inspect it). -/
inductive TlsSig
  | legacyRenegotiation
  | handshakeFailure
  | genericVerification
  deriving DecidableEq, Repr

/-- The failures `requests.head` can raise; every constructor models a
subclass of `requests.RequestException`. -/
inductive NetworkFailure
  | connectionError
  | timeout
  | dnsFailure
  | tls (sig : TlsSig)
  deriving DecidableEq, Repr

/-- Outcome of the single network interaction `check_link` performs: either an
HTTP response (after redirects) or a raised `requests.RequestException`. -/
inductive ProbeOutcome
  | response (code : Nat)
  | failure (e : NetworkFailure)
  deriving DecidableEq, Repr

/-- `requests.head(url, allow_redirects=True, timeout=TIMEOUT)`: returns the
final response or raises. -/
def requestsHead : ProbeOutcome → Except NetworkFailure Nat
  | .response code => .ok code
  | .failure e => .error e

/-- Every `NetworkFailure` is a `requests.RequestException`: connection
errors, timeouts, DNS failures and TLS errors all derive from it, so the
`except requests.RequestException` clause catches all of them. -/
def isRequestException : NetworkFailure → Bool
  | _ => true

/-- `check_link` body with the exception flow explicit: the `try` block runs
`requests.head`; a raised `RequestException` is caught and turned into
`"Broken"`; any other exception would propagate (`src/app.py:303-309`). -/
def check_link_exc (o : ProbeOutcome) : Except NetworkFailure String :=
  match requestsHead o with
  | .ok c => .ok (if 400 ≤ c then "Error " ++ toString c else "OK")
  | .error e => if isRequestException e then .ok "Broken" else .error e

/-- The status string `check_link` returns (`src/app.py:303-309`). -/
def check_link (o : ProbeOutcome) : String :=
  match requestsHead o with
  | .ok c => if 400 ≤ c then "Error " ++ toString c else "OK"
  | .error _ => "Broken"

/-! ## Catalog Normalizer (`get_links_with_meta`, `src/app.py:256-298`) -/

/-- One raw upstream catalog item: the fields `get_links_with_meta` reads.
`none` models an absent key. -/
structure RawForm where
  en_department : Option String := none
  en_title : Option String := none
  tc_department : Option String := none
  tc_title : Option String := none
  sc_department : Option String := none
  sc_title : Option String := none
  en_url : Option String := none
  tc_url : Option String := none
  sc_url : Option String := none
  deriving DecidableEq, Repr

/-- A normalized link record (`src/app.py:292-297`). -/
structure LinkRecord where
  department : String
  title : String
  lang : String
  url : String
  deriving DecidableEq, Repr

/-- Department/title selection with the language-priority fallback chain
(`src/app.py:282-287`). -/
def formDeptTitle (f : RawForm) : String × String :=
  if truthy f.en_department && truthy f.en_title then
    (pyStrip (f.en_department.getD ""), pyStrip (f.en_title.getD ""))
  else if truthy f.tc_department && truthy f.tc_title then
    (pyStrip (f.tc_department.getD ""), pyStrip (f.tc_title.getD ""))
  else
    (pyStrip (f.sc_department.getD ""), pyStrip (f.sc_title.getD ""))

/-- The url field of `f` for a language key (`form.get(f"{lang}_url")`). -/
def formUrl (f : RawForm) (lang : String) : Option String :=
  if lang = "en" then f.en_url
  else if lang = "tc" then f.tc_url
  else f.sc_url

/-- Records emitted for one raw item: one per truthy url field, in language
order en, tc, sc (`src/app.py:289-297`). -/
def formRecords (f : RawForm) : List LinkRecord :=
  let dt := formDeptTitle f
  (["en", "tc", "sc"].filter (fun lang => truthy (formUrl f lang))).map
    (fun lang =>
      { department := dt.1, title := dt.2, lang := lang,
        url := pyStrip ((formUrl f lang).getD "") })

/-- The record list built from a successfully fetched catalog payload
(`src/app.py:280-298`). -/
def normalizeForms (forms : List RawForm) : List LinkRecord :=
  forms.flatMap formRecords

/-- Outcome of one fetch attempt against the catalog endpoint:
a network/JSON failure, a JSON payload that is not an array, or an array. -/
inductive FetchOutcome
  | netFailure
  | nonArray
  | array (forms : List RawForm)
  deriving DecidableEq, Repr

/-- A fetch attempt succeeds only with a non-empty JSON array; a non-array or
empty payload raises `ValueError` and counts as a failed attempt
(`src/app.py:262-273`). -/
def attemptForms : FetchOutcome → Option (List RawForm)
  | .array forms => if forms.isEmpty then none else some forms
  | _ => none

/-- `get_links_with_meta`: up to 3 attempts, first valid payload wins; if all
attempts fail the function returns the empty list (`src/app.py:256-298`). -/
def get_links_with_meta (a1 a2 a3 : FetchOutcome) : List LinkRecord :=
  match attemptForms a1 with
  | some forms => normalizeForms forms
  | none =>
    match attemptForms a2 with
    | some forms => normalizeForms forms
    | none =>
      match attemptForms a3 with
      | some forms => normalizeForms forms
      | none => []

/-! ## History Merger (`run_check`, `src/app.py:311-375`) -/

/-- One persisted check result (`src/app.py:349-356`). -/
structure CheckResult where
  department : String
  title : String
  lang : String
  url : String
  status : String
  first_broken : Option String
  deriving DecidableEq, Repr

/-- The persisted `history.json` document as far as `run_check` reads and
writes it. -/
structure HistoryFile where
  results : List CheckResult
  last_checked : Option String
  last_auto_refresh : Option String
  deriving DecidableEq, Repr

/-- `history.get("results", [])` on the optional snapshot file. -/
def oldResultsOf : Option HistoryFile → List CheckResult
  | some h => h.results
  | none => []

/-- `next((h for h in old_results if h["url"] == rec["url"] and
h["status"] != "OK"), None)` (`src/app.py:346`). -/
def findPrev (old : List CheckResult) (url : String) : Option CheckResult :=
  old.find? (fun h => h.url == url && h.status != "OK")

/-- `prev["first_broken"] if prev and prev.get("first_broken") else now`
(`src/app.py:347`); the truthiness test makes `None` and `""` both fall back
to `now`. -/
def firstBrokenFor (old : List CheckResult) (url now : String) : String :=
  match findPrev old url with
  | some prev =>
    match prev.first_broken with
    | some fb => if fb.isEmpty then now else fb
    | none => now
  | none => now

/-- One merged row (`src/app.py:344-356`). -/
def mergeRow (old : List CheckResult) (now : String) (rec : LinkRecord)
    (status : String) : CheckResult :=
  { department := rec.department, title := rec.title, lang := rec.lang,
    url := rec.url, status := status,
    first_broken :=
      if status = "OK" then none else some (firstBrokenFor old rec.url now) }

/-- The merge loop: probe each record over the network behaviour `net` and
attach first-broken continuity (`src/app.py:334-356`). -/
def merge_results (old : List CheckResult) (now : String)
    (net : String → ProbeOutcome) (records : List LinkRecord) :
    List CheckResult :=
  records.map (fun rec => mergeRow old now rec (check_link (net rec.url)))

/-- `status_order.get(status.split()[0], 1)` with
`status_order = {'Error': 0, 'Broken': 0, 'OK': 1}` (`src/app.py:358-359`).
The `none` branch is unreachable for statuses the prober produces. -/
def statusRank (s : String) : Nat :=
  match pyFirstToken s with
  | some tok => if tok = "Error" ∨ tok = "Broken" then 0 else 1
  | none => 1

/-- The sort key `(status_order.get(...), department, title)` compared
lexicographically, as Python's tuple comparison does (`src/app.py:359`). -/
def keyLE (a b : CheckResult) : Bool :=
  decide (statusRank a.status < statusRank b.status ∨
    (statusRank a.status = statusRank b.status ∧
      (a.department < b.department ∨
        (a.department = b.department ∧ a.title ≤ b.title))))

/-- `results.sort(key=...)`: Python's stable sort, modelled by `mergeSort`
with the tuple-key order (`src/app.py:358-359`). -/
def sortResults (rs : List CheckResult) : List CheckResult :=
  rs.mergeSort keyLE

/-! ## Run Coordinator (`run_check`, `src/app.py:311-375`) -/

/-- One event put on the progress queue (`update_progress`,
`src/app.py:54-62`; `current_item` is always `""` and omitted). -/
structure ProgressEvent where
  state : String
  message : String
  current : Nat
  total : Nat
  deriving DecidableEq, Repr

/-- The per-record `"checking"` events, indices starting at 1
(`src/app.py:302,334`). -/
def checkingEvents (records : List LinkRecord) : List ProgressEvent :=
  (List.range records.length).map (fun i =>
    let rec' := records.getD i ⟨"", "", "", ""⟩
    { state := "checking",
      message := "Checking " ++ rec'.department ++ " - " ++ rec'.title ++
        " (" ++ rec'.lang ++ ")",
      current := i + 1, total := records.length })

/-- One invocation of `run_check` after the lock is held
(`src/app.py:311-375`): returns the value returned to the caller, the new
contents of `history.json` and the progress events emitted, given the three
possible fetch-attempt outcomes, the network behaviour per url, the current
snapshot file, the run timestamp string and the `auto` flag. -/
def run_check (a1 a2 a3 : FetchOutcome) (net : String → ProbeOutcome)
    (file : Option HistoryFile) (now : String) (auto : Bool) :
    List CheckResult × Option HistoryFile × List ProgressEvent :=
  let ev0 : ProgressEvent := ⟨"fetching", "Getting forms data...", 0, 0⟩
  let ev1 : ProgressEvent := ⟨"fetching", "Fetching forms data...", 0, 0⟩
  let records := get_links_with_meta a1 a2 a3
  if records.isEmpty then
    (oldResultsOf file, file, [ev0, ev1, ⟨"complete", "No records found", 0, 0⟩])
  else
    let old := oldResultsOf file
    let sorted := sortResults (merge_results old now net records)
    let newFile : HistoryFile :=
      { results := sorted, last_checked := some now,
        last_auto_refresh :=
          if auto then some now
          else (file.bind (fun h => h.last_auto_refresh)) }
    (sorted, some newFile,
      [ev0, ev1] ++ checkingEvents records ++
        [⟨"complete", "Check completed", 0, 0⟩])

/-! ## Single-flight guard (`with_check_lock`, `src/app.py:40-52`) -/

/-- The process state shared between run invocations: the `check_lock`, the
`is_checking` flag and the persisted snapshot file. -/
structure SharedState where
  lockHeld : Bool
  is_checking : Bool
  file : Option HistoryFile
  deriving DecidableEq, Repr

/-- What a guarded run invocation returns to its HTTP caller. -/
inductive RunResponse
  | alreadyRunning409
  | completed (results : List CheckResult)
  deriving DecidableEq, Repr

/-- `with_check_lock`-wrapped `run_check` (`src/app.py:40-52`):
`check_lock.acquire(blocking=False)` failing returns the 409 error at once
without touching anything; otherwise the run executes and the `finally` block
restores `is_checking` and releases the lock. -/
def guardedRunCheck (st : SharedState) (a1 a2 a3 : FetchOutcome)
    (net : String → ProbeOutcome) (now : String) (auto : Bool) :
    RunResponse × SharedState × List ProgressEvent :=
  if st.lockHeld then
    (.alreadyRunning409, st, [])
  else
    let out := run_check a1 a2 a3 net st.file now auto
    (.completed out.1,
      { lockHeld := st.lockHeld, is_checking := st.is_checking,
        file := out.2.1 },
      out.2.2)

/-! ## Progress Channel (`progress_stream`, `src/app.py:452-467`) -/

/-- The `timeout` argument of `progress_queue.get` in the stream generator
(`src/app.py:458`). -/
def streamIdleTimeout : Nat := 30

/-- What the stream generator yields to its subscriber. -/
inductive StreamOutput
  | data (e : ProgressEvent)
  | keepAlive
  deriving DecidableEq, Repr

/-- One pass of the generator loop waiting for an event that arrives after
`d` time units: each full idle window of `streamIdleTimeout` units raises
`queue.Empty` and yields one keep-alive, then the event is delivered
(`src/app.py:455-465`). -/
def stream_iter (d : Nat) (e : ProgressEvent) : List StreamOutput :=
  if d < streamIdleTimeout then [.data e]
  else .keepAlive :: stream_iter (d - streamIdleTimeout) e
termination_by d
decreasing_by simp [streamIdleTimeout] at *; omega

/-- The generator run over a finite timed trace of queued events (delay since
the previous interaction, event): the loop breaks after yielding an event
whose state is `"complete"` (`src/app.py:454-465`). -/
def progress_stream_gen : List (Nat × ProgressEvent) → List StreamOutput
  | [] => []
  | (d, e) :: rest =>
    stream_iter d e ++
      (if e.state = "complete" then [] else progress_stream_gen rest)

/-! ## Helper lemmas -/

/-- The first Python token of `"Error " ++ t` is `"Error"` for any tail. -/
lemma pyFirstToken_error_append (t : String) :
    pyFirstToken ("Error " ++ t) = some "Error" := rfl

/-- The tuple-key order is transitive. -/
lemma keyLE_trans (a b c : CheckResult) (hab : keyLE a b = true)
    (hbc : keyLE b c = true) : keyLE a c = true := by
  simp only [keyLE, decide_eq_true_eq] at hab hbc ⊢
  rcases hab with h1 | ⟨e1, hab2⟩
  · rcases hbc with h2 | ⟨e2, _⟩
    · exact Or.inl (lt_trans h1 h2)
    · exact Or.inl (by rw [← e2]; exact h1)
  · rcases hbc with h2 | ⟨e2, hbc2⟩
    · exact Or.inl (by rw [e1]; exact h2)
    · refine Or.inr ⟨e1.trans e2, ?_⟩
      rcases hab2 with hd1 | ⟨ed1, ht1⟩
      · rcases hbc2 with hd2 | ⟨ed2, _⟩
        · exact Or.inl (lt_trans hd1 hd2)
        · exact Or.inl (by rw [← ed2]; exact hd1)
      · rcases hbc2 with hd2 | ⟨ed2, ht2⟩
        · exact Or.inl (by rw [ed1]; exact hd2)
        · exact Or.inr ⟨ed1.trans ed2, le_trans ht1 ht2⟩

/-- The tuple-key order is total. -/
lemma keyLE_total (a b : CheckResult) : keyLE a b || keyLE b a := by
  simp only [keyLE, Bool.or_eq_true, decide_eq_true_eq]
  rcases lt_trichotomy (statusRank a.status) (statusRank b.status) with h | h | h
  · exact Or.inl (Or.inl h)
  · rcases lt_trichotomy a.department b.department with hd | hd | hd
    · exact Or.inl (Or.inr ⟨h, Or.inl hd⟩)
    · rcases le_total a.title b.title with ht | ht
      · exact Or.inl (Or.inr ⟨h, Or.inr ⟨hd, ht⟩⟩)
      · exact Or.inr (Or.inr ⟨h.symm, Or.inr ⟨hd.symm, ht⟩⟩)
    · exact Or.inr (Or.inr ⟨h.symm, Or.inl hd⟩)
  · exact Or.inr (Or.inl h)

/-- When the fetch yields records, `run_check` returns the sorted merge. -/
lemma run_check_results_of_ne (a1 a2 a3 : FetchOutcome)
    (net : String → ProbeOutcome) (file : Option HistoryFile)
    (now : String) (auto : Bool)
    (hne : get_links_with_meta a1 a2 a3 ≠ []) :
    (run_check a1 a2 a3 net file now auto).1 =
      sortResults (merge_results (oldResultsOf file) now net
        (get_links_with_meta a1 a2 a3)) := by
  have hf : (get_links_with_meta a1 a2 a3).isEmpty = false := by
    cases hc : get_links_with_meta a1 a2 a3 with
    | nil => exact absurd hc hne
    | cons x xs => rfl
  simp [run_check, hf]

/-- What `firstBrokenFor` computes, given a well-formed previous snapshot:
it is never the empty string, it is inherited from a non-OK previous result
for the same url when one exists, and it is `now` when none exists. -/
lemma firstBrokenFor_spec (old : List CheckResult) (url now : String)
    (hnow : now ≠ "")
    (hwf : ∀ h ∈ old, h.status ≠ "OK" →
      h.first_broken ≠ none ∧ h.first_broken ≠ some "") :
    firstBrokenFor old url now ≠ "" ∧
    ((∃ h ∈ old, h.url = url ∧ h.status ≠ "OK") →
      ∃ h ∈ old, h.url = url ∧ h.status ≠ "OK" ∧
        h.first_broken = some (firstBrokenFor old url now)) ∧
    ((∀ h ∈ old, h.url = url → h.status = "OK") →
      firstBrokenFor old url now = now) := by
  cases hfind : findPrev old url with
  | none =>
    have hall := List.find?_eq_none.mp hfind
    refine ⟨by simp [firstBrokenFor, hfind, hnow], ?_, ?_⟩
    · rintro ⟨h, hmem, hurl, hst⟩
      have := hall h hmem
      simp [hurl, hst] at this
    · intro _
      simp [firstBrokenFor, hfind]
  | some prev =>
    have hmem : prev ∈ old := List.mem_of_find?_eq_some hfind
    have hpred := List.find?_some hfind
    simp only [Bool.and_eq_true, beq_iff_eq, bne_iff_ne, ne_eq] at hpred
    obtain ⟨hurl, hst⟩ := hpred
    obtain ⟨hfb1, hfb2⟩ := hwf prev hmem hst
    obtain ⟨t, hfb⟩ : ∃ t, prev.first_broken = some t := by
      cases hv : prev.first_broken with
      | none => exact absurd hv hfb1
      | some t => exact ⟨t, rfl⟩
    have htne : t ≠ "" := by
      intro hcon
      exact hfb2 (by rw [hfb, hcon])
    have hie : t.isEmpty = false := by
      cases hi : t.isEmpty with
      | false => rfl
      | true => exact absurd ((String.isEmpty_iff t).mp hi) htne
    have hval : firstBrokenFor old url now = t := by
      simp [firstBrokenFor, hfind, hfb, hie]
    refine ⟨hval ▸ htne, fun _ => ⟨prev, hmem, hurl, hst, by rw [hval, hfb]⟩,
      fun hall => absurd (hall prev hmem hurl) hst⟩

/-! ## Claim theorems -/

/-- C2: a run invocation arriving while the single-flight guard is held fails
immediately with the distinguishable 409 "already running" response, emits
nothing, and leaves the persisted snapshot and all shared state unchanged. -/
theorem C2_theorem (st : SharedState) (a1 a2 a3 : FetchOutcome)
    (net : String → ProbeOutcome) (now : String) (auto : Bool)
    (h : st.lockHeld = true) :
    guardedRunCheck st a1 a2 a3 net now auto =
      (RunResponse.alreadyRunning409, st, []) := by
  simp [guardedRunCheck, h]

/-- C2 witness: a concrete rejected invocation with the lock held. -/
theorem C2_witness :
    (SharedState.mk true false (some ⟨[], some "T0", none⟩)).lockHeld = true ∧
    guardedRunCheck ⟨true, false, some ⟨[], some "T0", none⟩⟩
        FetchOutcome.netFailure FetchOutcome.netFailure FetchOutcome.netFailure
        (fun _ => ProbeOutcome.response 200) "T1" false =
      (RunResponse.alreadyRunning409,
        ⟨true, false, some ⟨[], some "T0", none⟩⟩, []) :=
  ⟨rfl, C2_theorem _ _ _ _ _ _ _ rfl⟩

/-- C3: when every fetch attempt fails or yields an invalid (non-array) or
empty payload, the run goes directly to a `complete` "No records found" event,
returns the previously persisted results, and leaves the snapshot file
unchanged. -/
theorem C3_theorem (a1 a2 a3 : FetchOutcome) (net : String → ProbeOutcome)
    (file : Option HistoryFile) (now : String) (auto : Bool)
    (h1 : attemptForms a1 = none) (h2 : attemptForms a2 = none)
    (h3 : attemptForms a3 = none) :
    run_check a1 a2 a3 net file now auto =
      (oldResultsOf file, file,
        [⟨"fetching", "Getting forms data...", 0, 0⟩,
         ⟨"fetching", "Fetching forms data...", 0, 0⟩,
         ⟨"complete", "No records found", 0, 0⟩]) := by
  simp [run_check, get_links_with_meta, h1, h2, h3]

/-- C3 witness: a network failure, a non-array payload and an empty array in
the three attempts; the previously persisted result survives untouched. -/
theorem C3_witness :
    attemptForms FetchOutcome.netFailure = none ∧
    attemptForms FetchOutcome.nonArray = none ∧
    attemptForms (FetchOutcome.array []) = none ∧
    run_check FetchOutcome.netFailure FetchOutcome.nonArray
        (FetchOutcome.array []) (fun _ => ProbeOutcome.response 200)
        (some ⟨[⟨"D", "T", "en", "u", "OK", none⟩], some "T0", some "A0"⟩)
        "T1" true =
      ([⟨"D", "T", "en", "u", "OK", none⟩],
        some ⟨[⟨"D", "T", "en", "u", "OK", none⟩], some "T0", some "A0"⟩,
        [⟨"fetching", "Getting forms data...", 0, 0⟩,
         ⟨"fetching", "Fetching forms data...", 0, 0⟩,
         ⟨"complete", "No records found", 0, 0⟩]) :=
  ⟨rfl, rfl, rfl, C3_theorem _ _ _ _ _ _ _ rfl rfl rfl⟩

/-- C5 counterexample: the code has no `Restricted` branch — a final response
code 401 yields status `Error 401`, not `Restricted 401` (and 403 likewise
yields `Error 403`). -/
theorem C5_counterexample :
    check_link (ProbeOutcome.response 401) = "Error 401" ∧
    check_link (ProbeOutcome.response 401) ≠ "Restricted 401" ∧
    check_link (ProbeOutcome.response 403) = "Error 403" ∧
    check_link (ProbeOutcome.response 403) ≠ "Restricted 403" := by
  refine ⟨rfl, ?_, rfl, ?_⟩ <;> decide

/-- C5 (amended): every final response code ≥ 400 — including 401 and 403 —
yields status `Error <code>`; every final response code < 400 yields `OK`. -/
theorem C5_theorem (c : Nat) :
    (400 ≤ c → check_link (ProbeOutcome.response c) = "Error " ++ toString c) ∧
    (c < 400 → check_link (ProbeOutcome.response c) = "OK") := by
  constructor
  · intro h
    simp [check_link, requestsHead, h]
  · intro h
    have : ¬ 400 ≤ c := by omega
    simp [check_link, requestsHead, this]

/-- C5 witness: the amended classification at codes 401 and 200. -/
theorem C5_witness :
    check_link (ProbeOutcome.response 401) = "Error " ++ toString 401 ∧
    check_link (ProbeOutcome.response 200) = "OK" :=
  ⟨(C5_theorem 401).1 (by decide), (C5_theorem 200).2 (by decide)⟩

/-- C6 counterexample: a TLS failure with the legacy-renegotiation signature
is swallowed by the generic `except requests.RequestException` clause and
classified `Broken`, not `TLS Legacy Renegotiation Unsupported`. -/
theorem C6_counterexample :
    check_link (ProbeOutcome.failure (NetworkFailure.tls
      TlsSig.legacyRenegotiation)) = "Broken" ∧
    check_link (ProbeOutcome.failure (NetworkFailure.tls
      TlsSig.legacyRenegotiation)) ≠ "TLS Legacy Renegotiation Unsupported" := by
  refine ⟨rfl, ?_⟩; decide

/-- C6 (amended): every request failure — including a TLS failure carrying the
legacy-renegotiation signature — yields the final status `Broken`, produced
immediately with no retry and no GET-fallback attempt (the single HEAD request
is the only network interaction the prober makes). -/
theorem C6_theorem (e : NetworkFailure) :
    check_link (ProbeOutcome.failure e) = "Broken" ∧
    check_link_exc (ProbeOutcome.failure e) = Except.ok "Broken" := by
  cases e <;> simp [check_link, check_link_exc, requestsHead, isRequestException]

/-- C7: the prober never raises to its caller — every probe outcome, network
failures included, is absorbed into the returned status string. -/
theorem C7_theorem (o : ProbeOutcome) :
    check_link_exc o = Except.ok (check_link o) := by
  cases o with
  | response c => simp [check_link, check_link_exc, requestsHead]
  | failure e => simp [check_link, check_link_exc, requestsHead, isRequestException]

/-- C9 counterexample: a raw item whose url field is whitespace-only is truthy
before stripping, so the normalizer emits a record whose url is empty. -/
theorem C9_counterexample :
    normalizeForms [{ en_department := some "Dept",
                      en_title := some "Form",
                      en_url := some " " }] =
      [{ department := "Dept", title := "Form", lang := "en", url := "" }] ∧
    ∃ r ∈ normalizeForms [{ en_department := some "Dept",
                            en_title := some "Form",
                            en_url := some " " }], r.url = "" := by
  refine ⟨by decide, ⟨⟨"Dept", "Form", "en", ""⟩, by decide, rfl⟩⟩

/-- C9 (amended): every emitted record's url is the stripped value of a
non-empty raw url field of its item — hence trimmed — but it can itself be
empty when the raw field is whitespace-only, because the code tests truthiness
before stripping. -/
theorem C9_theorem (f : RawForm) (r : LinkRecord) (h : r ∈ formRecords f) :
    ∃ s, formUrl f r.lang = some s ∧ s ≠ "" ∧ r.url = pyStrip s := by
  simp only [formRecords, List.mem_map, List.mem_filter] at h
  obtain ⟨lang, ⟨hmem, htruthy⟩, heq⟩ := h
  obtain ⟨s, hs⟩ : ∃ s, formUrl f lang = some s := by
    cases hv : formUrl f lang with
    | none => rw [hv] at htruthy; exact absurd htruthy (by decide)
    | some s => exact ⟨s, rfl⟩
  rw [hs] at htruthy
  have hsne : s ≠ "" := by
    intro hcon
    rw [hcon] at htruthy
    exact absurd htruthy (by decide)
  subst heq
  exact ⟨s, by simpa using hs, hsne, by simp [hs]⟩

/-- C9 witness: a concrete record emitted from a url field with surrounding
whitespace. -/
theorem C9_witness :
    (⟨"Dept", "Form", "en", "x"⟩ : LinkRecord) ∈
      formRecords { en_department := some "Dept",
                    en_title := some "Form",
                    en_url := some " x " } ∧
    ∃ s, formUrl { en_department := some "Dept",
                   en_title := some "Form",
                   en_url := some " x " } "en" = some s ∧ s ≠ "" ∧
      "x" = pyStrip s :=
  ⟨by decide,
    C9_theorem { en_department := some "Dept",
                 en_title := some "Form",
                 en_url := some " x " }
      ⟨"Dept", "Form", "en", "x"⟩ (by decide)⟩

/-- C10: every status the prober can return is the non-empty string `OK`,
`Broken`, or `Error <code>` with code ≥ 400, so taking the first
whitespace-delimited token of the status never fails in the merger's sort
key. -/
theorem C10_theorem (o : ProbeOutcome) :
    (check_link o = "OK" ∨ check_link o = "Broken" ∨
      ∃ c, 400 ≤ c ∧ check_link o = "Error " ++ toString c) ∧
    ∃ tok, pyFirstToken (check_link o) = some tok := by
  cases o with
  | response c =>
    by_cases h : 400 ≤ c
    · have he : check_link (ProbeOutcome.response c) = "Error " ++ toString c := by
        simp [check_link, requestsHead, h]
      exact ⟨Or.inr (Or.inr ⟨c, h, he⟩),
        ⟨"Error", by rw [he]; exact pyFirstToken_error_append _⟩⟩
    · have he : check_link (ProbeOutcome.response c) = "OK" := by
        simp [check_link, requestsHead, h]
      exact ⟨Or.inl he, ⟨"OK", by rw [he]; rfl⟩⟩
  | failure e =>
    exact ⟨Or.inr (Or.inl rfl), ⟨"Broken", rfl⟩⟩

/-- C8 counterexample: the generator's idle window is not 10 time units — a
subscriber whose first event arrives after 20 units (more than 10 units of
silence) is handed the event directly, with no keep-alive ever yielded. -/
theorem C8_counterexample :
    progress_stream_gen [(20, ⟨"checking", "Checking A - B (en)", 1, 3⟩)] =
      [StreamOutput.data ⟨"checking", "Checking A - B (en)", 1, 3⟩] ∧
    StreamOutput.keepAlive ∉
      progress_stream_gen [(20, ⟨"checking", "Checking A - B (en)", 1, 3⟩)] := by
  have h1 : stream_iter 20 ⟨"checking", "Checking A - B (en)", 1, 3⟩ =
      [StreamOutput.data ⟨"checking", "Checking A - B (en)", 1, 3⟩] := by
    rw [stream_iter]
    simp [streamIdleTimeout]
  constructor
  · simp [progress_stream_gen, h1]
  · simp [progress_stream_gen, h1]

/-- C8 (amended): a subscriber that sees no event within an idle window of
30 time units (the `queue.get` timeout) receives a synthetic keep-alive event
rather than being disconnected, and a subscriber that reads an event with
state `complete` terminates its own read loop, ignoring the rest of its
trace. -/
theorem C8_theorem (d : Nat) (e : ProgressEvent)
    (rest : List (Nat × ProgressEvent)) :
    (streamIdleTimeout ≤ d →
      (progress_stream_gen ((d, e) :: rest)).head? =
        some StreamOutput.keepAlive) ∧
    (e.state = "complete" →
      progress_stream_gen ((d, e) :: rest) = stream_iter d e) := by
  constructor
  · intro h
    have h2 : stream_iter d e =
        StreamOutput.keepAlive :: stream_iter (d - streamIdleTimeout) e := by
      rw [stream_iter, if_neg (Nat.not_lt.mpr h)]
    simp [progress_stream_gen, h2]
  · intro h
    simp [progress_stream_gen, h]

/-- C8 witness: a `complete` event arriving after 35 idle units — one
keep-alive is yielded first and the loop stops without reading the rest. -/
theorem C8_witness :
    streamIdleTimeout ≤ 35 ∧
    (ProgressEvent.mk "complete" "Check completed" 0 0).state = "complete" ∧
    (progress_stream_gen [(35, ⟨"complete", "Check completed", 0, 0⟩), (1, ⟨"checking", "x", 1, 1⟩)]).head? = some StreamOutput.keepAlive ∧
    progress_stream_gen [(35, ⟨"complete", "Check completed", 0, 0⟩), (1, ⟨"checking", "x", 1, 1⟩)] = stream_iter 35 ⟨"complete", "Check completed", 0, 0⟩ :=
  ⟨by decide, rfl,
    (C8_theorem 35 ⟨"complete", "Check completed", 0, 0⟩
      [(1, ⟨"checking", "x", 1, 1⟩)]).1 (by decide),
    (C8_theorem 35 ⟨"complete", "Check completed", 0, 0⟩
      [(1, ⟨"checking", "x", 1, 1⟩)]).2 rfl⟩

/-- C1: in the merged result set produced by a run over a well-formed previous
snapshot, every `OK` result has `first_broken = null`; every non-OK result
carries a non-null (and non-empty) `first_broken` that is inherited unchanged
from a non-OK previous result for the same url when one exists, and is the
current run's timestamp when none exists. -/
theorem C1_theorem (a1 a2 a3 : FetchOutcome) (net : String → ProbeOutcome)
    (file : Option HistoryFile) (now : String) (auto : Bool)
    (hne : get_links_with_meta a1 a2 a3 ≠ []) (hnow : now ≠ "")
    (hwf : ∀ h ∈ oldResultsOf file, h.status ≠ "OK" →
      h.first_broken ≠ none ∧ h.first_broken ≠ some "") :
    ∀ r ∈ (run_check a1 a2 a3 net file now auto).1,
      (r.status = "OK" → r.first_broken = none) ∧
      (r.status ≠ "OK" →
        ∃ t, r.first_broken = some t ∧ t ≠ "" ∧
          ((∃ h ∈ oldResultsOf file, h.url = r.url ∧ h.status ≠ "OK") →
            ∃ h ∈ oldResultsOf file,
              h.url = r.url ∧ h.status ≠ "OK" ∧ h.first_broken = some t) ∧
          ((∀ h ∈ oldResultsOf file, h.url = r.url → h.status = "OK") →
            t = now)) := by
  intro r hr
  rw [run_check_results_of_ne a1 a2 a3 net file now auto hne] at hr
  simp only [sortResults, List.mem_mergeSort, merge_results, List.mem_map] at hr
  obtain ⟨rec, hrec, hEq⟩ := hr
  subst hEq
  set st := check_link (net rec.url) with hstdef
  by_cases hOK : st = "OK"
  · constructor
    · intro _
      simp [mergeRow, hOK]
    · intro hcontra
      simp [mergeRow, hOK] at hcontra
  · constructor
    · intro hcontra
      simp only [mergeRow] at hcontra
      exact absurd hcontra hOK
    · intro _
      obtain ⟨h1, h2, h3⟩ :=
        firstBrokenFor_spec (oldResultsOf file) rec.url now hnow hwf
      refine ⟨firstBrokenFor (oldResultsOf file) rec.url now, ?_, h1, ?_, ?_⟩
      · simp [mergeRow, hOK]
      · simpa [mergeRow] using h2
      · simpa [mergeRow] using h3

/-- C1 witness: one record whose url was already broken in the previous
snapshot; the run inherits its `first_broken` timestamp. -/
theorem C1_witness :
    get_links_with_meta (FetchOutcome.array [{ en_department := some "D", en_title := some "T", en_url := some "http://a" }]) FetchOutcome.netFailure FetchOutcome.netFailure ≠ [] ∧
    ("T1" : String) ≠ "" ∧
    (∀ h ∈ oldResultsOf (some ⟨[⟨"D", "T", "en", "http://a", "Error 500", some "B0"⟩], some "T0", none⟩), h.status ≠ "OK" → h.first_broken ≠ none ∧ h.first_broken ≠ some "") ∧
    (∀ r ∈ (run_check (FetchOutcome.array [{ en_department := some "D", en_title := some "T", en_url := some "http://a" }]) FetchOutcome.netFailure FetchOutcome.netFailure (fun _ => ProbeOutcome.response 404) (some ⟨[⟨"D", "T", "en", "http://a", "Error 500", some "B0"⟩], some "T0", none⟩) "T1" false).1,
      (r.status = "OK" → r.first_broken = none) ∧
      (r.status ≠ "OK" →
        ∃ t, r.first_broken = some t ∧ t ≠ "" ∧
          ((∃ h ∈ oldResultsOf (some ⟨[⟨"D", "T", "en", "http://a", "Error 500", some "B0"⟩], some "T0", none⟩), h.url = r.url ∧ h.status ≠ "OK") →
            ∃ h ∈ oldResultsOf (some ⟨[⟨"D", "T", "en", "http://a", "Error 500", some "B0"⟩], some "T0", none⟩),
              h.url = r.url ∧ h.status ≠ "OK" ∧ h.first_broken = some t) ∧
          ((∀ h ∈ oldResultsOf (some ⟨[⟨"D", "T", "en", "http://a", "Error 500", some "B0"⟩], some "T0", none⟩), h.url = r.url → h.status = "OK") →
            t = "T1"))) :=
  ⟨by decide, by decide, by decide,
    C1_theorem (FetchOutcome.array [{ en_department := some "D", en_title := some "T", en_url := some "http://a" }]) FetchOutcome.netFailure FetchOutcome.netFailure
      (fun _ => ProbeOutcome.response 404)
      (some ⟨[⟨"D", "T", "en", "http://a", "Error 500", some "B0"⟩], some "T0", none⟩)
      "T1" false (by decide) (by decide) (by decide)⟩

/-- C4: the merged result sequence a run produces is sorted ascending by the
key `(status_rank, department, title)`; the key order puts every result whose
status has first token `Error` or `Broken` (rank 0) before every other result
(rank 1), with ties broken by `(department, title)`. -/
theorem C4_theorem (a1 a2 a3 : FetchOutcome) (net : String → ProbeOutcome)
    (file : Option HistoryFile) (now : String) (auto : Bool)
    (hne : get_links_with_meta a1 a2 a3 ≠ []) :
    ((run_check a1 a2 a3 net file now auto).1.Pairwise
      (fun x y => keyLE x y = true)) ∧
    (∀ x y : CheckResult, keyLE x y = true →
      statusRank x.status ≤ statusRank y.status) ∧
    (∀ s tok, pyFirstToken s = some tok →
      statusRank s = if tok = "Error" ∨ tok = "Broken" then 0 else 1) := by
  refine ⟨?_, ?_, ?_⟩
  · rw [run_check_results_of_ne a1 a2 a3 net file now auto hne]
    simp only [sortResults]
    exact List.sorted_mergeSort keyLE_trans keyLE_total _
  · intro x y h
    simp only [keyLE, decide_eq_true_eq] at h
    rcases h with h | ⟨h, _⟩
    · exact le_of_lt h
    · exact le_of_eq h
  · intro s tok h
    simp [statusRank, h]

/-- C4 witness: a concrete run with a broken and an OK url. -/
theorem C4_witness :
    get_links_with_meta (FetchOutcome.array [{ en_department := some "D", en_title := some "T", en_url := some "http://a", tc_url := some "http://b" }]) FetchOutcome.netFailure FetchOutcome.netFailure ≠ [] ∧
    ((run_check (FetchOutcome.array [{ en_department := some "D", en_title := some "T", en_url := some "http://a", tc_url := some "http://b" }]) FetchOutcome.netFailure FetchOutcome.netFailure (fun u => if u = "http://a" then ProbeOutcome.response 200 else ProbeOutcome.response 404) none "T1" false).1.Pairwise
      (fun x y => keyLE x y = true)) ∧
    (∀ x y : CheckResult, keyLE x y = true →
      statusRank x.status ≤ statusRank y.status) ∧
    (∀ s tok, pyFirstToken s = some tok →
      statusRank s = if tok = "Error" ∨ tok = "Broken" then 0 else 1) := by
  refine ⟨by decide, ?_⟩
  exact (C4_theorem (FetchOutcome.array [{ en_department := some "D", en_title := some "T", en_url := some "http://a", tc_url := some "http://b" }]) FetchOutcome.netFailure FetchOutcome.netFailure
    (fun u => if u = "http://a" then ProbeOutcome.response 200 else ProbeOutcome.response 404)
    none "T1" false (by decide))

end GovLink
